import Mathlib

/-!
Verification of the vizia counter example (src/vizia/src/main.rs).

The application model is `AppData` with one i32 field `count`; it reacts to
`AppEvent::Increment` and `AppEvent::Decrement`.  The `Counter` composite view
holds two optional callback slots, reacts to its local `CounterEvent` messages
by invoking the matching slot, and `main` installs callbacks that re-emit the
corresponding `AppEvent`.  Rust i32 arithmetic is embedded on `Int` with an
explicit wrap modulo 2^32 (release semantics) and a checked variant that is
`none` at overflow (debug semantics).
-/

/-- Application-level message enum (main.rs lines 31-34). -/
inductive AppEvent where
  | Increment
  | Decrement
deriving DecidableEq, Repr

/-- View-local message enum of the Counter (main.rs lines 67-70). -/
inductive CounterEvent where
  | Increment
  | Decrement
deriving DecidableEq, Repr

/-- The universe of messages that occur in this program, plus a tag for any
foreign message type neither handler declares interest in.  In vizia a message
is an arbitrary typed payload; `event.map` attempts a downcast to the one type
a handler understands and is a no-op otherwise. -/
inductive Message where
  | app (e : AppEvent)
  | counter (e : CounterEvent)
  | other (tag : Nat)
deriving DecidableEq, Repr

/-- Lower bound of Rust i32. -/
def i32Min : Int := -(2 ^ 31)

/-- Upper bound of Rust i32. -/
def i32Max : Int := 2 ^ 31 - 1

/-- Two-complement wraparound of i32 arithmetic, as arithmetic modulo 2^32. -/
def wrap32 (n : Int) : Int := (n + 2 ^ 31) % 2 ^ 32 - 2 ^ 31

/-- The application model (main.rs lines 7-10): one i32 counter. -/
structure AppData where
  count : Int
deriving DecidableEq, Repr

/-- Model handler of AppData (main.rs lines 14-25): `event.map` downcasts the
message to `AppEvent`; on `Decrement` it runs `self.count -= 1`, on
`Increment` it runs `self.count += 1`, and any other message type is ignored.
The i32 update is embedded with release-build wraparound. -/
def AppData.event (d : AppData) (m : Message) : AppData :=
  match m with
  | Message.app AppEvent.Decrement => { count := wrap32 (d.count - 1) }
  | Message.app AppEvent.Increment => { count := wrap32 (d.count + 1) }
  | _ => d

/-- Debug-build embedding of the same handler: the i32 update is `none` when
`+= 1` or `-= 1` would leave the i32 range (overflow panic). -/
def AppData.eventChecked (d : AppData) (m : Message) : Option AppData :=
  match m with
  | Message.app AppEvent.Decrement =>
      if i32Min ≤ d.count - 1 then some { count := d.count - 1 } else none
  | Message.app AppEvent.Increment =>
      if d.count + 1 ≤ i32Max then some { count := d.count + 1 } else none
  | _ => some d

/-- Ambient handle passed to callbacks and handlers; `emit` enqueues a message
for upward propagation (spec section 2).  Only the queue of emitted messages
is observable to this program. -/
structure EventContext where
  queue : List Message
deriving Repr

/-- The `emit` operation of the context: enqueue one message. -/
def EventContext.emit (cx : EventContext) (m : Message) : EventContext :=
  { queue := cx.queue ++ [m] }

/-- The Counter composite view (main.rs lines 39-43): its only fields are the
two optional, owned callback slots. -/
structure Counter where
  on_increment : Option (EventContext → EventContext)
  on_decrement : Option (EventContext → EventContext)

/-- Modifier installing the decrement callback (main.rs lines 58-60): the slot
is overwritten with the new boxed closure. -/
def CounterModifiers.on_decrement (c : Counter)
    (callback : EventContext → EventContext) : Counter :=
  { c with on_decrement := some callback }

/-- Modifier installing the increment callback (main.rs lines 61-63). -/
def CounterModifiers.on_increment (c : Counter)
    (callback : EventContext → EventContext) : Counter :=
  { c with on_increment := some callback }

/-- View handler of Counter (main.rs lines 75-88): `event.map` downcasts to
`CounterEvent`; for each variant, if the matching slot holds a callback it is
invoked with the current context, otherwise nothing happens; any other message
type is ignored. -/
def Counter.event (c : Counter) (cx : EventContext) (m : Message) : EventContext :=
  match m with
  | Message.counter CounterEvent.Increment =>
      match c.on_increment with
      | some callback => callback cx
      | none => cx
  | Message.counter CounterEvent.Decrement =>
      match c.on_decrement with
      | some callback => callback cx
      | none => cx
  | _ => cx

/-- The Counter state constructed by `Counter::new` (main.rs lines 99-103):
both callback slots start as `None`. -/
def Counter.new : Counter :=
  { on_increment := none, on_decrement := none }

/-- A child view built by the Counter: a button with its press message and
style class, or a label with its text and style class. -/
inductive ViewNode where
  | button (label : String) (onPress : Message) (cls : String)
  | label (text : String) (cls : String)
deriving DecidableEq, Repr

/-- The HStack content built by the Counter constructor. -/
structure BuiltView where
  children : List ViewNode
  cls : String
deriving DecidableEq, Repr

/-- The view content built by `Counter::new` (main.rs lines 110-123): an HStack
of class "row" holding a "Decrement" button emitting `CounterEvent::Decrement`,
an "Increment" button emitting `CounterEvent::Increment`, and a label of class
"count" bound to the lens, displaying the lens value read from the model. -/
def Counter.build (lens : AppData → Int) (d : AppData) : BuiltView :=
  { children :=
      [ ViewNode.button "Decrement" (Message.counter CounterEvent.Decrement) "dec"
      , ViewNode.button "Increment" (Message.counter CounterEvent.Increment) "inc"
      , ViewNode.label (toString (lens d)) "count" ]
  , cls := "row" }

/-- Messages emitted by the buttons of a built view. -/
def BuiltView.buttonMessages (b : BuiltView) : List Message :=
  b.children.filterMap fun v =>
    match v with
    | ViewNode.button _ m _ => some m
    | _ => none

/-- The Counter handle produced in `main` (main.rs lines 137-139): slots
installed so that the increment callback emits `AppEvent::Increment` and the
decrement callback emits `AppEvent::Decrement`. -/
def mainCounter : Counter :=
  CounterModifiers.on_decrement
    (CounterModifiers.on_increment Counter.new
      (fun cx => cx.emit (Message.app AppEvent.Increment)))
    (fun cx => cx.emit (Message.app AppEvent.Decrement))

/-- Deliver a local CounterEvent to a Counter with an empty emission queue and
then deliver every application message it emitted to the model: the end-to-end
path local message → callback → emit → model handler. -/
def runCounterEvent (c : Counter) (d : AppData) (e : CounterEvent) : AppData :=
  (Counter.event c { queue := [] } (Message.counter e)).queue.foldl AppData.event d

/-- Embedding of the stylesheet step of `main` (main.rs lines 142-143): the
result of `add_stylesheet` is met with `.expect("Failed to load stylesheet")`;
the Rust panic is embedded as an `Except.error` carrying the panic message,
while a successful load continues. -/
def applyStylesheet (r : Except String Unit) : Except String Unit :=
  match r with
  | Except.ok u => Except.ok u
  | Except.error _ => Except.error "Failed to load stylesheet"

theorem wrap32_eq_self (m : Int) (h1 : i32Min ≤ m) (h2 : m ≤ i32Max) :
    wrap32 m = m := by
  unfold wrap32
  unfold i32Min at h1
  unfold i32Max at h2
  rw [Int.emod_eq_of_lt (by omega) (by omega)]
  omega

/-- C1: starting from count = 0, three Increments then one Decrement leave
count = 2, and a Decrement at count = 0 leaves count = -1 with no clamping. -/
theorem counter_sequence_from_zero :
    (([ Message.app AppEvent.Increment
      , Message.app AppEvent.Increment
      , Message.app AppEvent.Increment
      , Message.app AppEvent.Decrement ].foldl AppData.event { count := 0 }).count = 2)
    ∧ (AppData.event { count := 0 } (Message.app AppEvent.Decrement)).count = -1 := by
  constructor
  · decide
  · decide

/-- C2: with the callbacks installed in main, a local `CounterEvent.Increment`
makes the Counter emit exactly `AppEvent.Increment` (resp. Decrement), and
delivering that application message to the model changes count by exactly 1,
for every count strictly inside the i32 range. -/
theorem end_to_end_translation (d : AppData)
    (h1 : i32Min < d.count) (h2 : d.count < i32Max) :
    (Counter.event mainCounter { queue := [] }
        (Message.counter CounterEvent.Increment)).queue
      = [Message.app AppEvent.Increment]
    ∧ (Counter.event mainCounter { queue := [] }
        (Message.counter CounterEvent.Decrement)).queue
      = [Message.app AppEvent.Decrement]
    ∧ (runCounterEvent mainCounter d CounterEvent.Increment).count = d.count + 1
    ∧ (runCounterEvent mainCounter d CounterEvent.Decrement).count = d.count - 1 := by
  refine ⟨rfl, rfl, ?_, ?_⟩
  · show (AppData.event d (Message.app AppEvent.Increment)).count = d.count + 1
    show wrap32 (d.count + 1) = d.count + 1
    exact wrap32_eq_self _ (by unfold i32Min at h1 ⊢; omega)
      (by unfold i32Max at h2 ⊢; omega)
  · show (AppData.event d (Message.app AppEvent.Decrement)).count = d.count - 1
    show wrap32 (d.count - 1) = d.count - 1
    exact wrap32_eq_self _ (by unfold i32Min at h1 ⊢; omega)
      (by unfold i32Max at h2 ⊢; omega)

theorem end_to_end_translation_witness :
    (Counter.event mainCounter { queue := [] }
        (Message.counter CounterEvent.Increment)).queue
      = [Message.app AppEvent.Increment]
    ∧ (Counter.event mainCounter { queue := [] }
        (Message.counter CounterEvent.Decrement)).queue
      = [Message.app AppEvent.Decrement]
    ∧ (runCounterEvent mainCounter { count := 0 } CounterEvent.Increment).count
      = (AppData.mk 0).count + 1
    ∧ (runCounterEvent mainCounter { count := 0 } CounterEvent.Decrement).count
      = (AppData.mk 0).count - 1 :=
  end_to_end_translation { count := 0 } (by decide) (by decide)

/-- C3: for every model state and every message that is not an `AppEvent` (any
`CounterEvent` and any foreign message), the AppData handler leaves the model
unchanged. -/
theorem appdata_ignores_foreign_messages (d : AppData) (e : CounterEvent) (n : Nat) :
    AppData.event d (Message.counter e) = d
    ∧ AppData.event d (Message.other n) = d := by
  cases e <;> exact ⟨rfl, rfl⟩

/-- C4: with both slots `None` (the state made by `Counter::new`), handling
either local message invokes no callback: the context is returned unchanged,
no message is emitted, and the model is left unmutated. -/
theorem counter_without_callbacks_noop (d : AppData) (e : CounterEvent)
    (cx : EventContext) :
    Counter.event Counter.new cx (Message.counter e) = cx
    ∧ (Counter.event Counter.new { queue := [] } (Message.counter e)).queue = []
    ∧ runCounterEvent Counter.new d e = d := by
  cases e <;> exact ⟨rfl, rfl, rfl⟩

/-- C5: installing a callback twice through the same modifier leaves only the
second one in the slot, and handling the matching local message invokes the
second callback, with the result independent of the first. -/
theorem slot_replacement (c : Counter) (f g : EventContext → EventContext)
    (cx : EventContext) :
    (CounterModifiers.on_increment (CounterModifiers.on_increment c f) g).on_increment
      = some g
    ∧ (CounterModifiers.on_decrement (CounterModifiers.on_decrement c f) g).on_decrement
      = some g
    ∧ Counter.event (CounterModifiers.on_increment (CounterModifiers.on_increment c f) g)
        cx (Message.counter CounterEvent.Increment) = g cx
    ∧ Counter.event (CounterModifiers.on_decrement (CounterModifiers.on_decrement c f) g)
        cx (Message.counter CounterEvent.Decrement) = g cx :=
  ⟨rfl, rfl, rfl, rfl⟩

/-- Handler-bearing nodes on the paths of this application's tree: the two
buttons and the HStack inside the Counter carry no handler of their own, the
Counter view carries `Counter::event`, and the root model carries
`AppData::event`. -/
inductive Handler where
  | button
  | hstack
  | counterView
  | rootModel
deriving DecidableEq, Repr

/-- Modelled from the spec: the vizia propagation engine (the upward walk
performed by `emit`) is not part of this repository's sources.  Per the spec,
each node's handler attempts to narrow the message to the variant set it
declares interest in and ignores non-matches: the Counter view understands
`CounterEvent` and the root model understands `AppEvent`; no other node
handles anything. -/
def handles : Handler → Message → Bool
  | Handler.counterView, Message.counter _ => true
  | Handler.rootModel, Message.app _ => true
  | _, _ => false

/-- Modelled from the spec: an emitted Event is delivered starting at the
current node and walking upward through ancestors to the tree root inclusive;
delivering to the root model runs `AppData.event`, and no other node on the
path mutates the model. -/
def propagate (d : AppData) (path : List Handler) (m : Message) : AppData :=
  path.foldl
    (fun s h =>
      match h with
      | Handler.rootModel => AppData.event s m
      | _ => s)
    d

/-- The handlers on a path that act on a given message. -/
def actsOn (path : List Handler) (m : Message) : List Handler :=
  path.filter fun h => handles h m

/-- Modelled from the spec: the ancestor path walked by a message emitted from
the Counter's context (the callbacks installed in main emit there): the
Counter view itself, then the root model. -/
def appEmitPath : List Handler := [Handler.counterView, Handler.rootModel]

/-- Modelled from the spec: the ancestor path walked by a message emitted from
a button inside the Counter: the button, the HStack, the Counter view, then
the root model. -/
def counterEmitPath : List Handler :=
  [Handler.button, Handler.hstack, Handler.counterView, Handler.rootModel]

/-- C6: an application message emitted from the Counter's context is acted on
by exactly one handler, the root model AppData; the path above that model is
empty (it is the root), so the event propagates no further after the model
acts; and the net effect of the whole propagation is one `AppData.event`. -/
theorem app_message_consumed_once (e : AppEvent) (d : AppData) :
    actsOn appEmitPath (Message.app e) = [Handler.rootModel]
    ∧ (appEmitPath.dropWhile fun h => ! handles h (Message.app e)).tail = []
    ∧ propagate d appEmitPath (Message.app e) = AppData.event d (Message.app e) := by
  cases e <;> exact ⟨rfl, rfl, rfl⟩

/-- C7: the Counter's internal buttons emit only `CounterEvent` messages, and
on the full emission path the only handler that acts on a `CounterEvent` is
the Counter's own; the part of the path above the Counter acts on none of them
and the model is left unchanged there. -/
theorem counter_event_scoped (e : CounterEvent) (d : AppData) (lens : AppData → Int) :
    (Counter.build lens d).buttonMessages
      = [Message.counter CounterEvent.Decrement, Message.counter CounterEvent.Increment]
    ∧ actsOn counterEmitPath (Message.counter e) = [Handler.counterView]
    ∧ actsOn [Handler.rootModel] (Message.counter e) = []
    ∧ propagate d [Handler.rootModel] (Message.counter e) = d := by
  cases e <;> exact ⟨rfl, rfl, rfl, rfl⟩

/-- C8: the Counter view is stateless with respect to the counter value: its
whole state is the two callback slots (any Counter equals the one rebuilt from
just those two fields), and the built content, the label included, is a pure
function of the value read through the lens: two model states on which the
lens agrees build identical content.  In particular this holds for the derived
lens `AppData.count` used in main. -/
theorem counter_stateless (c : Counter) (lens : AppData → Int) (d d' : AppData)
    (h : lens d = lens d') :
    c = Counter.mk c.on_increment c.on_decrement
    ∧ Counter.build lens d = Counter.build lens d' := by
  constructor
  · cases c
    rfl
  · unfold Counter.build
    rw [h]

theorem counter_stateless_witness :
    Counter.new = Counter.mk Counter.new.on_increment Counter.new.on_decrement
    ∧ Counter.build AppData.count { count := 7 } = Counter.build AppData.count { count := 7 } :=
  counter_stateless Counter.new AppData.count { count := 7 } { count := 7 } rfl

/-- C9: if the stylesheet load fails during construction the application
aborts with the descriptive message of the `expect`, never continuing with any
success value, while a successful load is passed through. -/
theorem stylesheet_failure_fatal :
    (∀ e : String, applyStylesheet (Except.error e) = Except.error "Failed to load stylesheet")
    ∧ (∀ e : String, ∀ u : Unit, applyStylesheet (Except.error e) ≠ Except.ok u)
    ∧ applyStylesheet (Except.ok ()) = Except.ok () := by
  refine ⟨fun e => rfl, fun e u => ?_, rfl⟩
  intro h
  exact Except.noConfusion h

/-- C10: the count is i32, not unbounded: in the checked (debug) embedding an
Increment at i32::MAX and a Decrement at i32::MIN are overflow panics, and in
the wrapping (release) embedding they wrap around modulo 2^32 instead of
leaving the i32 range, so the value does not grow without bound. -/
theorem count_is_i32_overflow :
    AppData.eventChecked { count := i32Max } (Message.app AppEvent.Increment) = none
    ∧ AppData.eventChecked { count := i32Min } (Message.app AppEvent.Decrement) = none
    ∧ (AppData.event { count := i32Max } (Message.app AppEvent.Increment)).count = i32Min
    ∧ (AppData.event { count := i32Min } (Message.app AppEvent.Decrement)).count = i32Max
    ∧ i32Min = i32Max + 1 - 2 ^ 32
    ∧ (AppData.event { count := i32Max } (Message.app AppEvent.Increment)).count ≠ i32Max + 1 := by
  refine ⟨by decide, by decide, by decide, by decide, by decide, by decide⟩
